import Mathlib

/-!
Verification of the Crumble Bakery documentation script
(`.dev-team/implementations/project.py`).

The script constructs a single record holding fixed project constants,
exposes four accessor methods that each return a hard-coded dictionary,
and a driver `main` that prints a title line followed by four sections
to standard output.

The embedding is shallow: the record becomes a Lean structure, each
Python method becomes a state-passing function `Report → result × Report`
(the methods mutate nothing, which the embedding reflects by returning
the receiver unchanged), dictionaries become association lists that keep
insertion order, and the driver becomes a pure function computing the
exact byte stream written to standard output.
-/

set_option maxRecDepth 10000

/-- A single quote character, used by Python `repr` of strings. -/
def pyQuote : String := String.singleton (Char.ofNat 39)

/-- Values that occur inside the nested dictionaries of
`get_technical_features`: Python strings and Python booleans. -/
inductive PyVal where
  | str : String → PyVal
  | bool : Bool → PyVal
deriving DecidableEq

/-- Python `repr` of a `PyVal`, as it appears when a dict is printed:
strings are single-quoted, booleans print as `True` / `False`. -/
def PyVal.pyRepr : PyVal → String
  | PyVal.str s => pyQuote ++ s ++ pyQuote
  | PyVal.bool b => if b then "True" else "False"

/-- Python `str`/`repr` of a dictionary with string keys: keys are
single-quoted, entries are separated by a comma and a space, the whole
is wrapped in braces.  This is the text `print(f"   {category}: {details}")`
produces for the nested `details` dict. -/
def pyDictRepr (d : List (String × PyVal)) : String :=
  "\x7b" ++ String.intercalate ", " (d.map (fun kv => pyQuote ++ kv.1 ++ pyQuote ++ ": " ++ PyVal.pyRepr kv.2)) ++ "\x7d"

/-- The record held by the documentation class: the fields set by
`CrumbleBakeryImplementation.__init__`. -/
structure CrumbleBakeryImplementation where
  project_name : String
  file_count : Nat
  max_lines_per_file : Nat
  tech_stack : List String
deriving DecidableEq

/-- `CrumbleBakeryImplementation()` — the constructor's fixed field values. -/
def CrumbleBakeryImplementation.init : CrumbleBakeryImplementation :=
  { project_name := "Crumble Bakery"
    file_count := 2
    max_lines_per_file := 100
    tech_stack := ["HTML5", "CSS3"] }

/-- `get_architecture_compliance`: returns the hard-coded compliance dict
and leaves the receiver untouched. -/
def CrumbleBakeryImplementation.get_architecture_compliance
    (self : CrumbleBakeryImplementation) :
    List (String × String) × CrumbleBakeryImplementation :=
  ([("file_count", "✓ Exactly 2 files (index.html, style.css)"),
    ("line_limits", "✓ Both files under 100 lines"),
    ("no_javascript", "✓ Pure HTML/CSS implementation"),
    ("no_external_libs", "✓ No Bootstrap, Tailwind, or external fonts"),
    ("semantic_html", "✓ Proper semantic tags used"),
    ("mobile_first", "✓ Mobile-first responsive design"),
    ("form_submission", "✓ Pure HTML form with POST method")],
   self)

/-- `get_technical_features`: returns the hard-coded nested dict and
leaves the receiver untouched. -/
def CrumbleBakeryImplementation.get_technical_features
    (self : CrumbleBakeryImplementation) :
    List (String × List (String × PyVal)) × CrumbleBakeryImplementation :=
  ([("responsive_design",
      [("approach", PyVal.str "Mobile-first with single @media breakpoint at 480px"),
       ("layout", PyVal.str "Flexbox for vertical/horizontal centering")]),
    ("color_scheme",
      [("background", PyVal.str "#faf8f5 (warm cream)"),
       ("primary_text", PyVal.str "#333333 (dark gray)"),
       ("accent", PyVal.str "#8b4513 (saddle brown)")]),
    ("typography",
      [("font_stack", PyVal.str "system-ui, -apple-system, sans-serif"),
       ("no_external_fonts", PyVal.bool true)]),
    ("form_handling",
      [("method", PyVal.str "POST"),
       ("validation", PyVal.str "HTML5 required attribute"),
       ("accessibility", PyVal.str "ARIA labels for screen readers")])],
   self)

/-- `get_error_handling`: returns the hard-coded dict and leaves the
receiver untouched. -/
def CrumbleBakeryImplementation.get_error_handling
    (self : CrumbleBakeryImplementation) :
    List (String × String) × CrumbleBakeryImplementation :=
  ([("css_fallbacks", "System font stack ensures text renders"),
    ("form_validation", "HTML5 required attribute prevents empty submissions"),
    ("accessibility", "ARIA labels and semantic HTML for screen readers"),
    ("graceful_degradation", "Works without CSS (semantic HTML structure)")],
   self)

/-- `get_deployment_notes`: returns the hard-coded dict and leaves the
receiver untouched. -/
def CrumbleBakeryImplementation.get_deployment_notes
    (self : CrumbleBakeryImplementation) :
    List (String × String) × CrumbleBakeryImplementation :=
  ([("hosting", "Can be hosted on any static web server"),
    ("dependencies", "None - completely self-contained"),
    ("browser_support", "All modern browsers (IE11+)"),
    ("performance", "Minimal HTTP requests, no external resources"),
    ("seo_ready", "Semantic HTML with proper meta tags")],
   self)

/-- Python `print(s)` writes `s` followed by a newline to standard output. -/
def print_line (s : String) : String := s ++ "\n"

/-- The exact byte stream `main()` writes to standard output: the title
line built from `project_name`, then the four sections, each header
printed with a leading newline and a numeric prefix, each entry indented
by three spaces.  The compliance section prints only the value of each
entry; the other three sections print `key: value`. -/
def main_stdout : String :=
  let bakery := CrumbleBakeryImplementation.init
  let title := print_line ("=== " ++ bakery.project_name ++ " Implementation Documentation ===")
  let pc := bakery.get_architecture_compliance
  let sec1 := print_line "\n1. Architecture Compliance:" ++
    String.join (pc.1.map (fun kv => print_line ("   " ++ kv.2)))
  let pf := pc.2.get_technical_features
  let sec2 := print_line "\n2. Technical Features:" ++
    String.join (pf.1.map (fun kv => print_line ("   " ++ kv.1 ++ ": " ++ pyDictRepr kv.2)))
  let pe := pf.2.get_error_handling
  let sec3 := print_line "\n3. Error Handling:" ++
    String.join (pe.1.map (fun kv => print_line ("   " ++ kv.1 ++ ": " ++ kv.2)))
  let pd := pe.2.get_deployment_notes
  let sec4 := print_line "\n4. Deployment Notes:" ++
    String.join (pd.1.map (fun kv => print_line ("   " ++ kv.1 ++ ": " ++ kv.2)))
  title ++ sec1 ++ sec2 ++ sec3 ++ sec4

/-- Split a character stream into lines at newline characters; the first
argument accumulates the current line in reverse. -/
def split_lines_aux : List Char → List Char → List String
  | acc, [] => [String.mk acc.reverse]
  | acc, c :: cs =>
      if c == '\n' then String.mk acc.reverse :: split_lines_aux [] cs
      else split_lines_aux (c :: acc) cs

/-- The standard-output stream of `main()` as a list of lines (the
stream ends with a newline, so the final element is the empty string). -/
def main_lines : List String := split_lines_aux [] main_stdout.data

/-- The script is invoked as `python3 project.py`; `main()` reads neither
the argument vector nor the environment, so the embedding ignores both. -/
def run_entry_point ( _argv : List String) ( _env : List (String × String)) : String :=
  main_stdout

/-- `main()` contains no raise site and no fallible operation, so the
embedding of a full run always returns the output stream successfully. -/
def run_main : Except String String := Except.ok main_stdout

/-- Process exit code of a run: 0 on normal completion, 1 when the Python
process dies on an uncaught exception. -/
def process_exit_code : Except String String → Nat
  | Except.ok _ => 0
  | Except.error _ => 1

/-- `charsHasPref pat cs` is true when `cs` starts with `pat`. -/
def charsHasPref : List Char → List Char → Bool
  | [], _ => true
  | _ :: _, [] => false
  | p :: ps, c :: cs => p == c && charsHasPref ps cs

/-- `charsContainsSub pat cs` is true when `pat` occurs contiguously in
`cs`: the Python `in` test on strings. -/
def charsContainsSub (pat : List Char) : List Char → Bool
  | [] => pat.isEmpty
  | c :: cs => charsHasPref pat (c :: cs) || charsContainsSub pat cs

/-- Python `pat in s` for strings. -/
def strContains (s pat : String) : Bool := charsContainsSub pat.data s.data

/-- Python `s.startswith(pat)` for strings. -/
def strStarts (s pat : String) : Bool := charsHasPref pat.data s.data

/-- Claim C1, counterexample: the deployment-notes mapping does not have
exactly 4 entries (it has 5: hosting, dependencies, browser_support,
performance, seo_ready). -/
theorem deployment_notes_count_ne_four :
    ¬ ((CrumbleBakeryImplementation.init.get_deployment_notes).1.length = 4) := by
  decide

/-- Claim C1 (amended): the compliance mapping has exactly 7 entries, the
error-handling mapping exactly 4, the deployment-notes mapping exactly 5,
and the technical-features mapping exactly 4. -/
theorem accessor_entry_counts :
    (CrumbleBakeryImplementation.init.get_architecture_compliance).1.length = 7 ∧
    (CrumbleBakeryImplementation.init.get_error_handling).1.length = 4 ∧
    (CrumbleBakeryImplementation.init.get_deployment_notes).1.length = 5 ∧
    (CrumbleBakeryImplementation.init.get_technical_features).1.length = 4 :=
  ⟨rfl, rfl, rfl, rfl⟩

/-- Claim C2, counterexample: no line of the driver output is the literal
header text "Architecture Compliance:"; the actual header line carries a
numeric prefix, "1. Architecture Compliance:". -/
theorem no_bare_header_line :
    main_lines.contains "Architecture Compliance:" = false := by
  decide

/-- Claim C2 (amended): the driver prints a title line, then four sections
in fixed order with the literal header lines "1. Architecture Compliance:",
"2. Technical Features:", "3. Error Handling:", "4. Deployment Notes:",
each preceded by a blank line; under the compliance header each entry
prints as three spaces followed by the value only, while under the other
three headers each entry prints as three spaces, then key, a colon and a
space, then the value (technical-features values rendered as Python dict
text), all in insertion order. -/
theorem main_stdout_lines_structure :
    main_lines =
      ["=== Crumble Bakery Implementation Documentation ===",
       "", "1. Architecture Compliance:"] ++
      (CrumbleBakeryImplementation.init.get_architecture_compliance).1.map
        (fun kv => "   " ++ kv.2) ++
      ["", "2. Technical Features:"] ++
      (CrumbleBakeryImplementation.init.get_technical_features).1.map
        (fun kv => "   " ++ kv.1 ++ ": " ++ pyDictRepr kv.2) ++
      ["", "3. Error Handling:"] ++
      (CrumbleBakeryImplementation.init.get_error_handling).1.map
        (fun kv => "   " ++ kv.1 ++ ": " ++ kv.2) ++
      ["", "4. Deployment Notes:"] ++
      (CrumbleBakeryImplementation.init.get_deployment_notes).1.map
        (fun kv => "   " ++ kv.1 ++ ": " ++ kv.2) ++
      [""] := by
  decide

/-- Claim C3: the output is deterministic and input-independent: any two
runs of the entry point, whatever the argument vector and environment,
write the same byte stream to standard output. -/
theorem entry_point_deterministic
    (a₁ a₂ : List String) (e₁ e₂ : List (String × String)) :
    run_entry_point a₁ e₁ = run_entry_point a₂ e₂ := rfl

/-- Claim C4: for each of the four accessors, invoking it a second time
on the record returned by a first invocation yields a mapping with the
same keys (in order) and the same values (in order): the accessors are
idempotent and depend on no hidden state. -/
theorem accessors_idempotent_across_invocations (r : CrumbleBakeryImplementation) :
    (((r.get_architecture_compliance).2.get_architecture_compliance).1.map Prod.fst =
        (r.get_architecture_compliance).1.map Prod.fst ∧
      ((r.get_architecture_compliance).2.get_architecture_compliance).1.map Prod.snd =
        (r.get_architecture_compliance).1.map Prod.snd) ∧
    (((r.get_technical_features).2.get_technical_features).1.map Prod.fst =
        (r.get_technical_features).1.map Prod.fst ∧
      ((r.get_technical_features).2.get_technical_features).1.map Prod.snd =
        (r.get_technical_features).1.map Prod.snd) ∧
    (((r.get_error_handling).2.get_error_handling).1.map Prod.fst =
        (r.get_error_handling).1.map Prod.fst ∧
      ((r.get_error_handling).2.get_error_handling).1.map Prod.snd =
        (r.get_error_handling).1.map Prod.snd) ∧
    (((r.get_deployment_notes).2.get_deployment_notes).1.map Prod.fst =
        (r.get_deployment_notes).1.map Prod.fst ∧
      ((r.get_deployment_notes).2.get_deployment_notes).1.map Prod.snd =
        (r.get_deployment_notes).1.map Prod.snd) :=
  ⟨⟨rfl, rfl⟩, ⟨rfl, rfl⟩, ⟨rfl, rfl⟩, ⟨rfl, rfl⟩⟩

/-- Claim C5: each accessor is a pure function of the record: on every
record it returns a mapping (total, no error path) and hands back the
record unchanged (no side effects). -/
theorem accessors_pure_total_no_side_effects (r : CrumbleBakeryImplementation) :
    (∃ m, r.get_architecture_compliance = (m, r)) ∧
    (∃ m, r.get_technical_features = (m, r)) ∧
    (∃ m, r.get_error_handling = (m, r)) ∧
    (∃ m, r.get_deployment_notes = (m, r)) :=
  ⟨⟨_, rfl⟩, ⟨_, rfl⟩, ⟨_, rfl⟩, ⟨_, rfl⟩⟩

/-- Claim C6: the compliance mapping has an entry with key "file_count"
whose value contains the text "2". -/
theorem compliance_file_count_contains_two :
    ∃ v, (CrumbleBakeryImplementation.init.get_architecture_compliance).1.lookup
        "file_count" = some v ∧ strContains v "2" = true :=
  ⟨"✓ Exactly 2 files (index.html, style.css)", rfl, by decide⟩

/-- Claim C7: running the entry point (which takes no arguments) always
completes normally, so the process exits with code 0; no error path is
reachable. -/
theorem entry_point_exit_code_zero :
    process_exit_code run_main = 0 ∧ ∃ out, run_main = Except.ok out :=
  ⟨rfl, ⟨_, rfl⟩⟩

/-- Claim C8: calling any of the four accessors leaves every field of the
record (project_name, file_count, max_lines_per_file, tech_stack) exactly
as it was before the call. -/
theorem accessors_preserve_report_fields (r : CrumbleBakeryImplementation) :
    ((r.get_architecture_compliance).2.project_name = r.project_name ∧
      (r.get_architecture_compliance).2.file_count = r.file_count ∧
      (r.get_architecture_compliance).2.max_lines_per_file = r.max_lines_per_file ∧
      (r.get_architecture_compliance).2.tech_stack = r.tech_stack) ∧
    ((r.get_technical_features).2.project_name = r.project_name ∧
      (r.get_technical_features).2.file_count = r.file_count ∧
      (r.get_technical_features).2.max_lines_per_file = r.max_lines_per_file ∧
      (r.get_technical_features).2.tech_stack = r.tech_stack) ∧
    ((r.get_error_handling).2.project_name = r.project_name ∧
      (r.get_error_handling).2.file_count = r.file_count ∧
      (r.get_error_handling).2.max_lines_per_file = r.max_lines_per_file ∧
      (r.get_error_handling).2.tech_stack = r.tech_stack) ∧
    ((r.get_deployment_notes).2.project_name = r.project_name ∧
      (r.get_deployment_notes).2.file_count = r.file_count ∧
      (r.get_deployment_notes).2.max_lines_per_file = r.max_lines_per_file ∧
      (r.get_deployment_notes).2.tech_stack = r.tech_stack) :=
  ⟨⟨rfl, rfl, rfl, rfl⟩, ⟨rfl, rfl, rfl, rfl⟩,
    ⟨rfl, rfl, rfl, rfl⟩, ⟨rfl, rfl, rfl, rfl⟩⟩

/-- Claim C9: every value in the compliance mapping begins with the
check-mark and a space. -/
theorem compliance_values_check_marked (r : CrumbleBakeryImplementation) :
    ((r.get_architecture_compliance).1.all (fun kv => strStarts kv.2 "✓ ")) = true :=
  rfl

/-- Claim C10: the first line the driver writes, before any section
header, is the title line built from the record's project_name field,
"=== Crumble Bakery Implementation Documentation ===". -/
theorem first_line_is_title :
    main_lines.head? =
      some ("=== " ++ CrumbleBakeryImplementation.init.project_name ++
        " Implementation Documentation ===") ∧
    main_lines.head? = some "=== Crumble Bakery Implementation Documentation ===" := by
  constructor <;> decide
